import Mathlib

/-!
Verification development for the HPC pull consumer
(`hpc-consumer/hpc_pull_consumer.py`): a shallow embedding of the
message-body decoder, the per-message worker (`process_message`), the
staging discipline (`stage_local_files`), the executors' output-file
behaviour (`run_compute` / `run_host_compute`), and the lease loop
(`process_once` / `main`), together with theorems about them.
-/

/-- JSON values, the shape of decoded message bodies and of the files the
executors write.  Python `dict`s become `obj` with an association list of
fields (insertion order kept, first binding wins on lookup). -/
inductive Json where
  | null : Json
  | bool (b : Bool) : Json
  | num (n : Int) : Json
  | str (s : String) : Json
  | arr (elems : List Json) : Json
  | obj (fields : List (String × Json)) : Json

/-- Lookup of a key in an object's field list (Python `dict.get`). -/
def lookupField (fields : List (String × Json)) (k : String) : Option Json :=
  match fields with
  | [] => none
  | (k', v) :: rest => if k' = k then some v else lookupField rest k

/-- Field access on a `Json` value: `some` on objects, `none` otherwise. -/
def Json.field (j : Json) (k : String) : Option Json :=
  match j with
  | .obj fields => lookupField fields k
  | _ => none

/-- Whether a `Json` value is a structured object (a Python `dict`). -/
def Json.isObj : Json → Bool
  | .obj _ => true
  | _ => false

/-- Python `str.strip()` (kernel-computable replacement for `String.trim`):
drop whitespace from both ends. -/
def pyStrip (s : String) : String :=
  ⟨((s.data.dropWhile Char.isWhitespace).reverse.dropWhile Char.isWhitespace).reverse⟩

/-- Python `str.lower()` (kernel-computable replacement for
`String.toLower`), ASCII case folding character by character. -/
def pyLower (s : String) : String :=
  ⟨s.data.map Char.toLower⟩

/-- `content_type.strip().lower()`, as the decoder applies it. -/
def pyStripLower (s : String) : String :=
  pyLower (pyStrip s)

/-- Python `str()` applied to a decoded JSON value.  Scalar cases follow
Python exactly; composite values are abbreviated (no claim depends on the
rendering of a list or dict). -/
def pyStr : Json → String
  | .str s => s
  | .num n => toString n
  | .bool b => if b then "True" else "False"
  | .null => "None"
  | .arr _ => "<list>"
  | .obj _ => "<dict>"

/-- Python `int(x)` with the consumer's fallback to `0` on any conversion
error (`hpc_pull_consumer.py` lines 521-525). -/
def pyIntOr0 : Json → Int
  | .num n => n
  | .str s => ((pyStrip s).toInt?).getD 0
  | .bool b => if b then 1 else 0
  | _ => 0

/-- Python `s[-n:]`: the last `n` characters of `s` (the whole string when
it is shorter). -/
def pyTail (s : String) (n : Nat) : String :=
  ⟨s.data.drop (s.data.length - n)⟩

/-- A raw message body as delivered by a pull response: a Python `dict`,
a string, or some other unsupported runtime type (tagged by a type name). -/
inductive PyBody where
  | dict (fields : List (String × Json)) : PyBody
  | str (s : String) : PyBody
  | other (typeName : String) : PyBody

/-- The failure modes of the body decoder, one per `raise` site in
`decode_message_body_with_content_type`. -/
inductive DecodeError where
  | unableJson (body : String) : DecodeError
  | unsupportedText (body : String) : DecodeError
  | unsupportedBytes : DecodeError
  | unableGeneric (body : String) : DecodeError
  | unsupportedBodyType (typeName : String) : DecodeError
deriving DecidableEq

/-- The error text each `raise` site produces (the Python `ValueError`
messages, with the offending body interpolated). -/
def DecodeError.text : DecodeError → String
  | .unableJson b => "Unable to decode JSON message body: " ++ b
  | .unsupportedText b => "Unsupported text message body; expected JSON object: " ++ b
  | .unsupportedBytes => "Unsupported bytes message body for jobs queue; expected JSON content type"
  | .unableGeneric b => "Unable to decode message body: " ++ b
  | .unsupportedBodyType t => "Unsupported body type: " ++ t

/-- The two library primitives the decoder composes, left abstract: the
combined `base64.b64decode` + UTF-8 decode step (`none` when either step
raises) and `json.loads` (`none` when parsing raises). -/
structure DecodeEnv where
  b64decodeUtf8 : String → Option String
  jsonLoads : String → Option Json

/-- Shallow embedding of `decode_message_body_with_content_type`
(`hpc_pull_consumer.py` lines 174-207): dicts are returned unchanged;
string bodies are dispatched on the stripped, lowercased content type;
any non-dict, non-string body is rejected. -/
def decode_message_body_with_content_type (env : DecodeEnv) (body : PyBody)
    (content_type : String) : Except DecodeError Json :=
  match body with
  | .dict fields => .ok (.obj fields)
  | .str s =>
    let ct := pyStripLower content_type
    if ct = "json" ∨ ct = "" then
      match env.b64decodeUtf8 s >>= env.jsonLoads with
      | some j => .ok j
      | none =>
        match env.jsonLoads s with
        | some j => .ok j
        | none => .error (.unableJson s)
    else if ct = "text" then
      match env.jsonLoads s with
      | some j => .ok j
      | none => .error (.unsupportedText s)
    else if ct = "bytes" then
      .error .unsupportedBytes
    else
      match env.b64decodeUtf8 s >>= env.jsonLoads with
      | some j => .ok j
      | none =>
        match env.jsonLoads s with
        | some j => .ok j
        | none => .error (.unableGeneric s)
  | .other t => .error (.unsupportedBodyType t)

/-- Shallow embedding of `decode_message_body` (lines 170-171): the same
decoder with an empty content type. -/
def decode_message_body (env : DecodeEnv) (body : PyBody) : Except DecodeError Json :=
  decode_message_body_with_content_type env body ""

/-- Modelled from Python library semantics at the sample points the
witnesses evaluate: `json.loads "123" = 123`, `json.loads "42" = 42`,
and base64 `"MTIz"` decodes to the UTF-8 text `"123"`. -/
def sampleEnv : DecodeEnv where
  b64decodeUtf8 := fun s => if s = "MTIz" then some "123" else none
  jsonLoads := fun s =>
    if s = "123" then some (.num 123)
    else if s = "42" then some (.num 42)
    else none

/-- Claim C7: decoding a leased message body returns structured objects
unchanged; for string bodies with content type `json` or empty it attempts
base64-decode-then-JSON-parse and falls back to a JSON parse of the raw
string; with content type `text` it attempts a JSON parse of the raw
string; with content type `bytes` it fails with the unsupported-bytes
error; and every other body type surfaces as a decode error. -/
theorem decode_dispatch_rules (env : DecodeEnv) (s ct t : String)
    (fields : List (String × Json)) :
    (decode_message_body_with_content_type env (.dict fields) ct = .ok (.obj fields))
    ∧ ((pyStripLower ct = "json" ∨ pyStripLower ct = "") →
        (∀ j, env.b64decodeUtf8 s >>= env.jsonLoads = some j →
          decode_message_body_with_content_type env (.str s) ct = .ok j)
        ∧ (env.b64decodeUtf8 s >>= env.jsonLoads = none →
            (∀ j, env.jsonLoads s = some j →
              decode_message_body_with_content_type env (.str s) ct = .ok j)
            ∧ (env.jsonLoads s = none →
              decode_message_body_with_content_type env (.str s) ct =
                .error (.unableJson s))))
    ∧ (pyStripLower ct = "text" →
        (∀ j, env.jsonLoads s = some j →
          decode_message_body_with_content_type env (.str s) ct = .ok j)
        ∧ (env.jsonLoads s = none →
          decode_message_body_with_content_type env (.str s) ct =
            .error (.unsupportedText s)))
    ∧ (pyStripLower ct = "bytes" →
        decode_message_body_with_content_type env (.str s) ct =
          .error .unsupportedBytes)
    ∧ (decode_message_body_with_content_type env (.other t) ct =
        .error (.unsupportedBodyType t)) := by
  refine ⟨rfl, ?_, ?_, ?_, rfl⟩
  · intro hct
    constructor
    · intro j hj
      simp [decode_message_body_with_content_type, hct, hj]
    · intro hnone
      constructor
      · intro j hj
        simp [decode_message_body_with_content_type, hct, hnone, hj]
      · intro hnone2
        simp [decode_message_body_with_content_type, hct, hnone, hnone2]
  · intro hct
    have hne : ¬ (pyStripLower ct = "json" ∨ pyStripLower ct = "") := by
      rw [hct]; simp
    constructor
    · intro j hj
      simp [decode_message_body_with_content_type, hne, hct, hj]
    · intro hnone
      simp [decode_message_body_with_content_type, hne, hct, hnone]
  · intro hct
    have hne : ¬ (pyStripLower ct = "json" ∨ pyStripLower ct = "") := by
      rw [hct]; simp
    have hne2 : pyStripLower ct ≠ "text" := by
      rw [hct]; simp
    simp [decode_message_body_with_content_type, hne, hne2, hct]

/-- Witness for C7: the dispatch rules evaluated at a concrete text body
(content type `"text"`, body the string `"123"`). -/
theorem decode_dispatch_rules_witness :
    decode_message_body_with_content_type sampleEnv (.str "123") "text" =
      .ok (.num 123) := by
  have h := decode_dispatch_rules sampleEnv "123" "text" "t" []
  exact (h.2.2.1 rfl).1 (.num 123) rfl

/-- Claim C10: a string body that is valid JSON but not a JSON object —
the text `"123"` with content type `"text"` — decodes successfully to a
non-object value (the number 123) instead of failing with a decode
error. -/
theorem decode_accepts_non_object_body :
    decode_message_body_with_content_type sampleEnv (.str "123") "text" =
      .ok (.num 123) ∧ (Json.num 123).isObj = false :=
  ⟨rfl, rfl⟩

/-- Terminal outcome a worker enqueues for its lease (`process_message`'s
return value): acknowledge, or retry after `delay_seconds`. -/
inductive Outcome where
  | ack (lease_id : String) : Outcome
  | retry (lease_id : String) (delay_seconds : Int) : Outcome
deriving DecidableEq

/-- The slice of `Config` that `process_message` consults. -/
structure PMConfig where
  retry_delay_seconds : Int
  max_retry_attempts : Int
deriving DecidableEq

/-- A leased message from a pull response: `lease_id` (`none` when the key
is missing), the raw `attempts` value, the `content_type` hint, and the
raw body. -/
structure LeasedMsg where
  lease_id : Option String
  attempts : Option Json
  content_type : String
  body : PyBody

/-- Behaviour of the execution step reached from `process_message`
(`ensure_image_fresh` + `run_compute`, or `run_host_compute`): it either
returns a `(result_pointer, exit_code, meta)` triple — spelled out into
the meta fields the worker reads — or raises with an error text. -/
inductive ExecBehavior where
  | returns (result_pointer : String) (exit_code : Int)
      (command workdir stdout_tail stderr_tail started_at finished_at : String) :
      ExecBehavior
  | raises (msg : String) : ExecBehavior

/-- A result event as passed to `enqueue_result`: the three fixed payload
keys plus the `extra` keys; keys absent from a given call site are
`none`. -/
structure ResultEvent where
  job_id : String
  status : String
  result_pointer : String
  event_type : String
  exit_code : Int
  stdout_tail : Option String
  stderr_tail : String
  exec_mode : Option String
  command : Option String
  workdir : Option String
  started_at : String
  finished_at : String
  attempts : Option Int
deriving DecidableEq

/-- What one `process_message` call did: the outcome it returned (`none`
when the message had no usable `lease_id`) and the result events it
attempted to publish, in order, each tagged with whether the publish
succeeded. -/
structure PMResult where
  outcome : Option Outcome
  published : List (ResultEvent × Bool)

/-- `int(message.get("attempts", 0))` with fallback 0 (lines 521-525). -/
def messageAttempts (msg : LeasedMsg) : Int :=
  pyIntOr0 (msg.attempts.getD (.num 0))

/-- The event `enqueue_result` is given on the success path of
`process_message` (lines 499-515): status from the exit code, but
`event_type` fixed to `"completed"`. -/
def completedEvent (job_id exec_mode result_pointer : String) (exit_code : Int)
    (command workdir stdout_tail stderr_tail started_at finished_at : String) :
    ResultEvent :=
  { job_id := job_id
    status := if exit_code = 0 then "completed" else "failed"
    result_pointer := result_pointer
    event_type := "completed"
    exit_code := exit_code
    stdout_tail := some stdout_tail
    stderr_tail := stderr_tail
    exec_mode := some exec_mode
    command := some command
    workdir := some workdir
    started_at := started_at
    finished_at := finished_at
    attempts := none }

/-- The synthesised failure event of the retry-exhaustion path
(lines 538-553). -/
def synthFailedEvent (job_id err now : String) (attempts : Int) : ResultEvent :=
  { job_id := job_id
    status := "failed"
    result_pointer := ""
    event_type := "failed"
    exit_code := 1
    stdout_tail := none
    stderr_tail := pyTail err 8000
    exec_mode := none
    command := none
    workdir := none
    started_at := now
    finished_at := now
    attempts := some attempts }

/-- The error text of Python's `AttributeError` when the decoded body is
not a dict and `job.get("job_id", ...)` is called on it (modelled text;
only its identity matters). -/
def attrErrText : String :=
  "AttributeError: decoded message body has no attribute get"

/-- The `except` block of `process_message` (lines 518-556): retry while
`attempts < max_retry_attempts`, otherwise attempt to publish a
synthesised failed event — swallowing any publish error — and ack.
`prior` carries publish attempts already made in the `try` block; `pub2`
is the outcome of the synthesised publish (`none` = success). -/
def process_error_path (cfg : PMConfig) (msg : LeasedMsg) (lid job_id err now : String)
    (prior : List (ResultEvent × Bool)) (pub2 : Option String) : PMResult :=
  let attempts := messageAttempts msg
  if attempts < cfg.max_retry_attempts then
    ⟨some (.retry lid cfg.retry_delay_seconds), prior⟩
  else
    ⟨some (.ack lid), prior ++ [(synthFailedEvent job_id err now attempts, pub2.isNone)]⟩

/-- Shallow embedding of `process_message` (lines 475-556).  `exec` is the
behaviour of the execution step; `pub1` and `pub2` are the outcomes of the
first and second `enqueue_result` call (`none` = success, `some e` =
raised with text `e`); `now` is the timestamp taken in the `except`
block. -/
def process_message (env : DecodeEnv) (cfg : PMConfig) (msg : LeasedMsg)
    (exec : ExecBehavior) (pub1 pub2 : Option String) (now : String) : PMResult :=
  match msg.lease_id with
  | none => ⟨none, []⟩
  | some lid =>
    if lid = "" then ⟨none, []⟩
    else
      match decode_message_body_with_content_type env msg.body msg.content_type with
      | .error e => process_error_path cfg msg lid "unknown" e.text now [] pub2
      | .ok (.obj fields) =>
        let job_id := pyStr ((lookupField fields "job_id").getD (.str "unknown"))
        let job_input := (lookupField fields "input").getD (.obj [])
        let exec_mode :=
          match job_input with
          | .obj jf => pyLower (pyStr ((lookupField jf "exec_mode").getD (.str "container")))
          | _ => "container"
        match exec with
        | .raises m => process_error_path cfg msg lid job_id m now [] pub2
        | .returns rp ec cmd wd so se st fi =>
          let ev := completedEvent job_id exec_mode rp ec cmd wd so se st fi
          match pub1 with
          | none => ⟨some (.ack lid), [(ev, true)]⟩
          | some perr => process_error_path cfg msg lid job_id perr now [(ev, false)] pub2
      | .ok _ => process_error_path cfg msg lid "unknown" attrErrText now [] pub2

/-- The error text of the first exception raised inside `process_message`'s
`try` block, if any: a decode failure, the `AttributeError` on a non-dict
body, an execution failure, or a failure of the first publish. -/
def raisesText (env : DecodeEnv) (msg : LeasedMsg) (exec : ExecBehavior)
    (pub1 : Option String) : Option String :=
  match decode_message_body_with_content_type env msg.body msg.content_type with
  | .error e => some e.text
  | .ok (.obj _) =>
    match exec with
    | .raises m => some m
    | .returns _ _ _ _ _ _ _ _ => pub1
  | .ok _ => some attrErrText

/-- If the string is short enough, `pyTail` returns it unchanged. -/
theorem pyTail_eq_self (s : String) (n : Nat) (h : s.data.length ≤ n) :
    pyTail s n = s := by
  unfold pyTail
  rw [Nat.sub_eq_zero_of_le h, List.drop_zero]

/-- When the `try` block of `process_message` raises with text `e`, the
call reduces to the `except` block, with the prior publish attempts all
being failed publishes of `"completed"`-typed events. -/
theorem process_message_error_eq (env : DecodeEnv) (cfg : PMConfig) (msg : LeasedMsg)
    (exec : ExecBehavior) (pub1 pub2 : Option String) (now lid e : String)
    (hl : msg.lease_id = some lid) (hne : lid ≠ "")
    (herr : raisesText env msg exec pub1 = some e) :
    ∃ jid prior, process_message env cfg msg exec pub1 pub2 now =
        process_error_path cfg msg lid jid e now prior pub2
      ∧ ∀ p ∈ prior, p.1.event_type = "completed" ∧ p.2 = false := by
  cases hdec : decode_message_body_with_content_type env msg.body msg.content_type with
  | error er =>
    simp only [raisesText, hdec, Option.some.injEq] at herr
    refine ⟨"unknown", [], ?_, by simp⟩
    simp [process_message, hl, hne, hdec, herr]
  | ok j =>
    cases j with
    | obj fields =>
      cases exec with
      | raises m =>
        simp only [raisesText, hdec, Option.some.injEq] at herr
        refine ⟨pyStr ((lookupField fields "job_id").getD (.str "unknown")), [], ?_, by simp⟩
        simp [process_message, hl, hne, hdec, herr]
      | returns rp ec cmd wd so se st fi =>
        simp only [raisesText, hdec] at herr
        cases pub1 with
        | none => exact absurd herr (by simp)
        | some perr =>
          simp only [Option.some.injEq] at herr
          refine ⟨pyStr ((lookupField fields "job_id").getD (.str "unknown")),
            [(completedEvent
              (pyStr ((lookupField fields "job_id").getD (.str "unknown")))
              (match (lookupField fields "input").getD (.obj []) with
                | .obj jf => pyLower (pyStr ((lookupField jf "exec_mode").getD (.str "container")))
                | _ => "container")
              rp ec cmd wd so se st fi, false)], ?_, ?_⟩
          · simp [process_message, hl, hne, hdec, herr]
          · intro p hp
            simp at hp
            subst hp
            exact ⟨rfl, rfl⟩
    | null =>
      simp only [raisesText, hdec, Option.some.injEq] at herr
      refine ⟨"unknown", [], ?_, by simp⟩
      simp [process_message, hl, hne, hdec, herr]
    | bool b =>
      simp only [raisesText, hdec, Option.some.injEq] at herr
      refine ⟨"unknown", [], ?_, by simp⟩
      simp [process_message, hl, hne, hdec, herr]
    | num n =>
      simp only [raisesText, hdec, Option.some.injEq] at herr
      refine ⟨"unknown", [], ?_, by simp⟩
      simp [process_message, hl, hne, hdec, herr]
    | str s =>
      simp only [raisesText, hdec, Option.some.injEq] at herr
      refine ⟨"unknown", [], ?_, by simp⟩
      simp [process_message, hl, hne, hdec, herr]
    | arr elems =>
      simp only [raisesText, hdec, Option.some.injEq] at herr
      refine ⟨"unknown", [], ?_, by simp⟩
      simp [process_message, hl, hne, hdec, herr]

/-- Claim C3: when processing a message raises an error, the worker
retries with `delay_seconds = retry_delay_seconds` while the message's
attempts value (defaulting to 0) is below `max_retry_attempts`; otherwise
(in particular at `attempts = max_retry_attempts`) it acks — never
retries — and the only `"failed"`-typed event it attempts to publish is
the synthesised failure event, whose stderr tail is the error text
(exactly the error text whenever that text is at most 8000 characters). -/
theorem process_message_retry_policy (env : DecodeEnv) (cfg : PMConfig)
    (msg : LeasedMsg) (exec : ExecBehavior) (pub1 pub2 : Option String)
    (now lid e : String)
    (hl : msg.lease_id = some lid) (hne : lid ≠ "")
    (herr : raisesText env msg exec pub1 = some e) :
    (messageAttempts msg < cfg.max_retry_attempts →
      (process_message env cfg msg exec pub1 pub2 now).outcome =
        some (.retry lid cfg.retry_delay_seconds))
    ∧ (cfg.max_retry_attempts ≤ messageAttempts msg →
        (process_message env cfg msg exec pub1 pub2 now).outcome = some (.ack lid)
        ∧ ∃ jid,
            (process_message env cfg msg exec pub1 pub2 now).published.filter
                (fun p => p.1.event_type == "failed") =
              [(synthFailedEvent jid e now (messageAttempts msg), pub2.isNone)])
    ∧ (∀ jid a, e.data.length ≤ 8000 → (synthFailedEvent jid e now a).stderr_tail = e) := by
  obtain ⟨jid, prior, heq, hprior⟩ :=
    process_message_error_eq env cfg msg exec pub1 pub2 now lid e hl hne herr
  refine ⟨?_, ?_, ?_⟩
  · intro hlt
    rw [heq]
    simp [process_error_path, hlt]
  · intro hge
    have hnlt : ¬ messageAttempts msg < cfg.max_retry_attempts := not_lt.mpr hge
    rw [heq]
    refine ⟨by simp [process_error_path, hnlt], jid, ?_⟩
    have hfil : prior.filter (fun p => p.1.event_type == "failed") = [] := by
      rw [List.filter_eq_nil_iff]
      intro p hp
      have := (hprior p hp).1
      simp [this]
    simp [process_error_path, hnlt, List.filter_append, hfil, synthFailedEvent]
  · intro jid' a h
    show pyTail e 8000 = e
    exact pyTail_eq_self e 8000 h

/-- A concrete config: `retry_delay_seconds = 30`, `max_retry_attempts = 5`
(the defaults of `load_config`). -/
def sampleCfg : PMConfig := ⟨30, 5⟩

/-- A concrete leased message whose body cannot be decoded (content type
`bytes`), delivered with `attempts = 5`. -/
def msgBytes : LeasedMsg := ⟨some "L1", some (.num 5), "bytes", .str "xyz"⟩

/-- A concrete well-formed leased message with a dict body. -/
def msgDict : LeasedMsg := ⟨some "L2", some (.num 0), "", .dict [("job_id", .str "j1")]⟩

/-- Witness for C3: the retry policy evaluated on a message with
`attempts = 5 = max_retry_attempts` whose body fails to decode — the
worker acks instead of retrying. -/
theorem process_message_retry_policy_witness :
    (process_message sampleEnv sampleCfg msgBytes (.raises "unused") none none
      "t0").outcome = some (.ack "L1") :=
  ((process_message_retry_policy sampleEnv sampleCfg msgBytes (.raises "unused")
      none none "t0" "L1" DecodeError.unsupportedBytes.text rfl (by decide) rfl).2.1
    (by decide)).1

/-- Claim C1 (amended): whenever `process_message` returns an ack outcome,
at least one terminal (`completed`/`failed`-status) result event was
attempted before the ack; when the `try` block raised no error, exactly
one terminal event was *successfully* published before the ack; but on the
retry-exhaustion path the ack is returned whether or not the synthesised
event's publication succeeded. -/
theorem process_message_ack_terminal_event (env : DecodeEnv) (cfg : PMConfig)
    (msg : LeasedMsg) (exec : ExecBehavior) (pub1 pub2 : Option String)
    (now lid : String)
    (hack : (process_message env cfg msg exec pub1 pub2 now).outcome =
      some (.ack lid)) :
    (process_message env cfg msg exec pub1 pub2 now).published ≠ []
    ∧ (∀ p ∈ (process_message env cfg msg exec pub1 pub2 now).published,
        p.1.status = "completed" ∨ p.1.status = "failed")
    ∧ (raisesText env msg exec pub1 = none →
        ∃ ev, (process_message env cfg msg exec pub1 pub2 now).published =
          [(ev, true)]) := by
  cases hl : msg.lease_id with
  | none => simp [process_message, hl] at hack
  | some lid' =>
    by_cases hne : lid' = ""
    · simp [process_message, hl, hne] at hack
    · by_cases hlt : messageAttempts msg < cfg.max_retry_attempts
      · -- on the error path the outcome would be a retry, so the try
        -- block must have completed: publish succeeded.
        cases hdec : decode_message_body_with_content_type env msg.body msg.content_type with
        | error er =>
          simp [process_message, hl, hne, hdec, process_error_path, hlt] at hack
        | ok j =>
          cases j with
          | obj fields =>
            cases exec with
            | raises m =>
              simp [process_message, hl, hne, hdec, process_error_path, hlt] at hack
            | returns rp ec cmd wd so se st fi =>
              cases pub1 with
              | none =>
                refine ⟨by simp [process_message, hl, hne, hdec], ?_, ?_⟩
                · intro p hp
                  simp [process_message, hl, hne, hdec] at hp
                  rw [hp]
                  by_cases hec : ec = 0 <;>
                    simp [completedEvent, hec]
                · intro _
                  exact ⟨completedEvent
                      (pyStr ((lookupField fields "job_id").getD (.str "unknown")))
                      (match (lookupField fields "input").getD (.obj []) with
                        | .obj jf =>
                          pyLower (pyStr ((lookupField jf "exec_mode").getD (.str "container")))
                        | _ => "container")
                      rp ec cmd wd so se st fi,
                    by simp [process_message, hl, hne, hdec]⟩
              | some perr =>
                simp [process_message, hl, hne, hdec, process_error_path, hlt] at hack
          | null => simp [process_message, hl, hne, hdec, process_error_path, hlt] at hack
          | bool b => simp [process_message, hl, hne, hdec, process_error_path, hlt] at hack
          | num n => simp [process_message, hl, hne, hdec, process_error_path, hlt] at hack
          | str s => simp [process_message, hl, hne, hdec, process_error_path, hlt] at hack
          | arr elems => simp [process_message, hl, hne, hdec, process_error_path, hlt] at hack
      · cases hdec : decode_message_body_with_content_type env msg.body msg.content_type with
        | error er =>
          refine ⟨by simp [process_message, hl, hne, hdec, process_error_path, hlt], ?_, ?_⟩
          · intro p hp
            simp [process_message, hl, hne, hdec, process_error_path, hlt] at hp
            rw [hp]
            simp [synthFailedEvent]
          · intro hraise
            simp [raisesText, hdec] at hraise
        | ok j =>
          cases j with
          | obj fields =>
            cases exec with
            | raises m =>
              refine ⟨by simp [process_message, hl, hne, hdec, process_error_path, hlt], ?_, ?_⟩
              · intro p hp
                simp [process_message, hl, hne, hdec, process_error_path, hlt] at hp
                rw [hp]
                simp [synthFailedEvent]
              · intro hraise
                simp [raisesText, hdec] at hraise
            | returns rp ec cmd wd so se st fi =>
              cases pub1 with
              | none =>
                refine ⟨by simp [process_message, hl, hne, hdec], ?_, ?_⟩
                · intro p hp
                  simp [process_message, hl, hne, hdec] at hp
                  rw [hp]
                  by_cases hec : ec = 0 <;>
                    simp [completedEvent, hec]
                · intro _
                  exact ⟨completedEvent
                      (pyStr ((lookupField fields "job_id").getD (.str "unknown")))
                      (match (lookupField fields "input").getD (.obj []) with
                        | .obj jf =>
                          pyLower (pyStr ((lookupField jf "exec_mode").getD (.str "container")))
                        | _ => "container")
                      rp ec cmd wd so se st fi,
                    by simp [process_message, hl, hne, hdec]⟩
              | some perr =>
                refine ⟨by simp [process_message, hl, hne, hdec, process_error_path, hlt], ?_, ?_⟩
                · intro p hp
                  simp [process_message, hl, hne, hdec, process_error_path, hlt] at hp
                  rcases hp with hp | hp
                  · rw [hp]
                    by_cases hec : ec = 0 <;>
                      simp [completedEvent, hec]
                  · rw [hp]
                    simp [synthFailedEvent]
                · intro hraise
                  simp [raisesText, hdec] at hraise
          | null =>
            refine ⟨by simp [process_message, hl, hne, hdec, process_error_path, hlt], ?_, ?_⟩
            · intro p hp
              simp [process_message, hl, hne, hdec, process_error_path, hlt] at hp
              rw [hp]
              simp [synthFailedEvent]
            · intro hraise
              simp [raisesText, hdec] at hraise
          | bool b =>
            refine ⟨by simp [process_message, hl, hne, hdec, process_error_path, hlt], ?_, ?_⟩
            · intro p hp
              simp [process_message, hl, hne, hdec, process_error_path, hlt] at hp
              rw [hp]
              simp [synthFailedEvent]
            · intro hraise
              simp [raisesText, hdec] at hraise
          | num n =>
            refine ⟨by simp [process_message, hl, hne, hdec, process_error_path, hlt], ?_, ?_⟩
            · intro p hp
              simp [process_message, hl, hne, hdec, process_error_path, hlt] at hp
              rw [hp]
              simp [synthFailedEvent]
            · intro hraise
              simp [raisesText, hdec] at hraise
          | str s =>
            refine ⟨by simp [process_message, hl, hne, hdec, process_error_path, hlt], ?_, ?_⟩
            · intro p hp
              simp [process_message, hl, hne, hdec, process_error_path, hlt] at hp
              rw [hp]
              simp [synthFailedEvent]
            · intro hraise
              simp [raisesText, hdec] at hraise
          | arr elems =>
            refine ⟨by simp [process_message, hl, hne, hdec, process_error_path, hlt], ?_, ?_⟩
            · intro p hp
              simp [process_message, hl, hne, hdec, process_error_path, hlt] at hp
              rw [hp]
              simp [synthFailedEvent]
            · intro hraise
              simp [raisesText, hdec] at hraise

/-- Witness for C1 (amended): a successfully executed and published job. -/
theorem process_message_ack_terminal_event_witness :
    (process_message sampleEnv sampleCfg msgDict
      (.returns "ptr" 0 "echo ok" "/w" "" "" "t1" "t2") none none "t0").published ≠ [] :=
  (process_message_ack_terminal_event sampleEnv sampleCfg msgDict
    (.returns "ptr" 0 "echo ok" "/w" "" "" "t1" "t2") none none "t0" "L2" rfl).1

/-- Counterexample to C1 as stated: with `attempts = max_retry_attempts`
and a failing body decode, the publish of the synthesised failed event
itself fails (network error), yet the worker still returns an ack — an
ack with no successfully published terminal event. -/
theorem ack_without_published_event_cex :
    (process_message sampleEnv sampleCfg msgBytes (.raises "unused") none
        (some "network unreachable") "t0").outcome = some (.ack "L1")
    ∧ ((process_message sampleEnv sampleCfg msgBytes (.raises "unused") none
        (some "network unreachable") "t0").published.map Prod.snd) = [false] :=
  ⟨rfl, rfl⟩

/-- Counterexample to C4 as stated: a host job exiting 7 produces a result
event with `status = "failed"` but `event_type = "completed"` — the
`event_type` is not `"failed"` and does not agree with the status. -/
theorem event_type_mismatch_cex :
    ((process_message sampleEnv sampleCfg msgDict
        (.returns "ptr" 7 "exit 7" "/w" "" "" "t1" "t2") none none "t0").published.map
      (fun p => (p.1.status, p.1.event_type))) = [("failed", "completed")]
    ∧ ("completed" : String) ≠ "failed" :=
  ⟨rfl, by decide⟩

/-- Claim C4 (amended): when `execute` returns with a non-zero exit code,
the published result event carries `status = "failed"`, but its
`event_type` is always `"completed"` — the execute-returned publish site
hardcodes `event_type = "completed"`; `event_type = "failed"` appears only
on synthesised failure events.  The first attempted publication of the
call is that event, successful exactly when the publish call did not
raise. -/
theorem nonzero_exit_event_status (env : DecodeEnv) (cfg : PMConfig)
    (msg : LeasedMsg) (rp cmd wd so se st fi now lid : String) (ec : Int)
    (pub1 pub2 : Option String) (fields : List (String × Json))
    (hl : msg.lease_id = some lid) (hne : lid ≠ "")
    (hdec : decode_message_body_with_content_type env msg.body msg.content_type =
      .ok (.obj fields))
    (hec : ec ≠ 0) :
    ∃ jid em,
      (process_message env cfg msg (.returns rp ec cmd wd so se st fi)
          pub1 pub2 now).published.head? =
        some (completedEvent jid em rp ec cmd wd so se st fi, pub1.isNone)
      ∧ (completedEvent jid em rp ec cmd wd so se st fi).status = "failed"
      ∧ (completedEvent jid em rp ec cmd wd so se st fi).event_type = "completed" := by
  refine ⟨pyStr ((lookupField fields "job_id").getD (.str "unknown")),
    (match (lookupField fields "input").getD (.obj []) with
      | .obj jf => pyLower (pyStr ((lookupField jf "exec_mode").getD (.str "container")))
      | _ => "container"), ?_, by simp [completedEvent, hec], rfl⟩
  cases pub1 with
  | none => simp [process_message, hl, hne, hdec]
  | some perr =>
    by_cases hlt : messageAttempts msg < cfg.max_retry_attempts <;>
      simp [process_message, hl, hne, hdec, process_error_path, hlt]

/-- Witness for C4 (amended): the concrete host job exiting 7. -/
theorem nonzero_exit_event_status_witness :
    ∃ jid em,
      (process_message sampleEnv sampleCfg msgDict
          (.returns "ptr" 7 "exit 7" "/w" "" "" "t1" "t2") none none "t0").published.head? =
        some (completedEvent jid em "ptr" 7 "exit 7" "/w" "" "" "t1" "t2", true)
      ∧ (completedEvent jid em "ptr" 7 "exit 7" "/w" "" "" "t1" "t2").status = "failed"
      ∧ (completedEvent jid em "ptr" 7 "exit 7" "/w" "" "" "t1" "t2").event_type =
          "completed" := by
  simpa using nonzero_exit_event_status sampleEnv sampleCfg msgDict "ptr" "exit 7" "/w"
    "" "" "t1" "t2" "t0" "L2" 7 none none [("job_id", .str "j1")] rfl (by decide) rfl
    (by decide)

/-- Split a character list on a separator (helper for `pathParts`). -/
def splitOnChar (sep : Char) : List Char → List (List Char)
  | [] => [[]]
  | c :: cs =>
    let r := splitOnChar sep cs
    if c = sep then [] :: r
    else
      match r with
      | [] => [[c]]
      | g :: gs => (c :: g) :: gs

/-- `pathlib.Path(s).parts` for a relative POSIX path: split on `/`,
dropping empty and `"."` components (`".."` components are kept). -/
def pathParts (s : String) : List String :=
  ((splitOnChar '/' s.data).map (fun g => (⟨g⟩ : String))).filter
    (fun p => !(p == "" || p == "."))

/-- `pathlib.Path(s).is_absolute()` on POSIX: a leading slash. -/
def isAbsolutePath (s : String) : Bool :=
  match s.data with
  | '/' :: _ => true
  | _ => false

/-- `int(s, 8)` restricted to plain octal-digit strings; other accepted
Python spellings are not modelled (no claim concerns the mode value). -/
def parseOctal (s : String) : Option Nat :=
  if s.data ≠ [] ∧ s.data.all (fun c => decide ('0' ≤ c ∧ c ≤ '7'))
  then some (s.data.foldl (fun a c => a * 8 + (c.toNat - 48)) 0)
  else none

/-- One file materialised by staging: target path components, decoded
content, and permission bits. -/
structure StagedWrite where
  target : List String
  content : String
  mode : Nat
deriving DecidableEq

/-- One iteration of the `stage_local_files` loop (lines 216-243), for a
single `local_files` item: `ok none` when the item is skipped (non-dict
item, or empty stripped path/content), `error` when the iteration raises
(absolute or `..` path, or invalid base64), `ok (some w)` when a file is
written.  `b64` is the abstract `base64.b64decode` (+ bytes identity). -/
def stageEntry (b64 : String → Option String) (jobDir : List String) (item : Json) :
    Except String (Option StagedWrite) :=
  match item with
  | .obj fields =>
    let rel := pyStrip (pyStr ((lookupField fields "path").getD (.str "")))
    let dat := pyStrip (pyStr ((lookupField fields "content_b64").getD (.str "")))
    if rel = "" ∨ dat = "" then .ok none
    else if isAbsolutePath rel ∨ ".." ∈ pathParts rel then
      .error ("invalid local_files path: " ++ rel)
    else
      match b64 dat with
      | none => .error ("invalid base64 for staged file path=" ++ rel)
      | some data =>
        .ok (some ⟨jobDir ++ pathParts rel,
          data,
          (parseOctal (pyStrip (pyStr ((lookupField fields "mode").getD (.str "644"))))).getD 420⟩)
  | _ => .ok none

/-- The staging loop over the `local_files` items: the files written, in
order, and the error that aborted the loop, if any (writes made before
the aborting entry persist). -/
def stageLoop (b64 : String → Option String) (jobDir : List String) :
    List Json → List StagedWrite × Option String
  | [] => ([], none)
  | item :: rest =>
    match stageEntry b64 jobDir item with
    | .error e => ([], some e)
    | .ok none => stageLoop b64 jobDir rest
    | .ok (some w) =>
      let r := stageLoop b64 jobDir rest
      (w :: r.1, r.2)

/-- Shallow embedding of `stage_local_files` (lines 210-244): returns the
writes performed and the error raised, if any.  A missing or non-list
`local_files` value stages nothing. -/
def stage_local_files (b64 : String → Option String)
    (job_input : List (String × Json)) (jobDir : List String) :
    List StagedWrite × Option String :=
  match lookupField job_input "local_files" with
  | some (.arr items) => stageLoop b64 jobDir items
  | _ => ([], none)

/-- Modelled from Python library semantics at the sample point the
witnesses use: base64 `"QUE="` decodes to the bytes `"AA"`. -/
def sampleB64 : String → Option String :=
  fun s => if s = "QUE=" then some "AA" else none

/-- A staged write's target extends the job directory. -/
theorem stageEntry_target (b64 : String → Option String) (jd : List String)
    (item : Json) (w : StagedWrite)
    (h : stageEntry b64 jd item = .ok (some w)) :
    ∃ rest, w.target = jd ++ rest := by
  cases item with
  | obj fields =>
    simp only [stageEntry] at h
    split at h
    · simp at h
    · split at h
      · simp at h
      · split at h
        · simp at h
        · simp only [Except.ok.injEq, Option.some.injEq] at h
          exact ⟨_, by rw [← h]⟩
  | null => simp [stageEntry] at h
  | bool b => simp [stageEntry] at h
  | num n => simp [stageEntry] at h
  | str s => simp [stageEntry] at h
  | arr elems => simp [stageEntry] at h

/-- Every write the staging loop performs lands under the job directory. -/
theorem stageLoop_targets (b64 : String → Option String) (jd : List String)
    (items : List Json) :
    ∀ w ∈ (stageLoop b64 jd items).1, ∃ rest, w.target = jd ++ rest := by
  induction items with
  | nil => simp [stageLoop]
  | cons item rest ih =>
    intro w hw
    cases he : stageEntry b64 jd item with
    | error e => simp [stageLoop, he] at hw
    | ok o =>
      cases o with
      | none =>
        simp only [stageLoop, he] at hw
        exact ih w hw
      | some w' =>
        simp only [stageLoop, he, List.mem_cons] at hw
        rcases hw with hw | hw
        · subst hw
          exact stageEntry_target b64 jd item w he
        · exact ih w hw

/-- Claim C5 (amended): staging raises an error — writing no bytes for the
entry — whenever the stripped `path` is non-empty with non-empty content
and is absolute or contains a `..` segment, and whenever the content is
not valid base64; entries whose stripped `path` (or content) is empty are
*silently skipped*, not rejected; and every write performed lands under
the job directory (the job directory's components are a prefix of the
target's). -/
theorem stage_local_files_policy (b64 : String → Option String)
    (job_input fields : List (String × Json)) (jd : List String) :
    (∀ w ∈ (stage_local_files b64 job_input jd).1, ∃ rest, w.target = jd ++ rest)
    ∧ (pyStrip (pyStr ((lookupField fields "path").getD (.str ""))) = "" ∨
        pyStrip (pyStr ((lookupField fields "content_b64").getD (.str ""))) = "" →
        stageEntry b64 jd (.obj fields) = .ok none)
    ∧ (∀ rel dat,
        pyStrip (pyStr ((lookupField fields "path").getD (.str ""))) = rel →
        pyStrip (pyStr ((lookupField fields "content_b64").getD (.str ""))) = dat →
        rel ≠ "" → dat ≠ "" →
        (isAbsolutePath rel = true ∨ ".." ∈ pathParts rel →
          stageEntry b64 jd (.obj fields) =
            .error ("invalid local_files path: " ++ rel))
        ∧ (isAbsolutePath rel = false → ".." ∉ pathParts rel → b64 dat = none →
          stageEntry b64 jd (.obj fields) =
            .error ("invalid base64 for staged file path=" ++ rel))) := by
  refine ⟨?_, ?_, ?_⟩
  · cases hlf : lookupField job_input "local_files" with
    | none => simp [stage_local_files, hlf]
    | some j =>
      cases j with
      | arr items =>
        simp only [stage_local_files, hlf]
        exact stageLoop_targets b64 jd items
      | null => simp [stage_local_files, hlf]
      | bool b => simp [stage_local_files, hlf]
      | num n => simp [stage_local_files, hlf]
      | str s => simp [stage_local_files, hlf]
      | obj fs => simp [stage_local_files, hlf]
  · intro h
    simp [stageEntry, h]
  · intro rel dat hrel hdat hrne hdne
    subst hrel
    subst hdat
    have h1 : ¬ (pyStrip (pyStr ((lookupField fields "path").getD (.str ""))) = "" ∨
        pyStrip (pyStr ((lookupField fields "content_b64").getD (.str ""))) = "") := by
      simp [hrne, hdne]
    constructor
    · intro habs
      simp [stageEntry, h1, habs]
    · intro hnabs hndd hb64
      have h2 : ¬ (isAbsolutePath (pyStrip (pyStr ((lookupField fields "path").getD (.str "")))) = true ∨
          ".." ∈ pathParts (pyStrip (pyStr ((lookupField fields "path").getD (.str ""))))) := by
        simp [hnabs, hndd]
      simp [stageEntry, h1, h2, hb64]

/-- Witness for C5 (amended): a well-formed relative entry stages under
the job directory, and a traversal entry (`../etc/x`) is rejected. -/
theorem stage_local_files_policy_witness :
    (∃ rest, (⟨["results", "j1", "sub", "file.txt"], "AA", 420⟩ : StagedWrite).target =
      ["results", "j1"] ++ rest)
    ∧ stageEntry sampleB64 ["results", "j1"]
        (.obj [("path", .str "../etc/x"), ("content_b64", .str "QUE=")]) =
      .error "invalid local_files path: ../etc/x" := by
  constructor
  · exact (stage_local_files_policy sampleB64
      [("local_files", .arr [.obj [("path", .str "sub/file.txt"), ("content_b64", .str "QUE=")]])]
      [] ["results", "j1"]).1 _ (by decide)
  · exact ((stage_local_files_policy sampleB64 []
      [("path", .str "../etc/x"), ("content_b64", .str "QUE=")] ["results", "j1"]).2.2
      "../etc/x" "QUE=" (by decide) (by decide) (by decide) (by decide)).1
      (by right; decide)

/-- Counterexample to C5 as stated: an entry whose `path` is the empty
string is silently skipped — no error is raised (and nothing is
written), where the claim demands a hard failure. -/
theorem empty_path_not_rejected_cex :
    stage_local_files sampleB64
      [("local_files", .arr [.obj [("path", .str ""), ("content_b64", .str "QUE=")]])]
      ["results", "j1"] = ([], none) :=
  rfl

/-- The `output.json` synthesis step at the end of `run_compute`
(lines 321-335): the content of `output.json` after the step, given the
container's exit code and the `output.json` the container produced, if
any.  The synthesised object ignores the exit code: it always states
`status = "completed"` and a note claiming the container exited 0. -/
def run_compute_output_json (job_id finished : String) (_returncode : Int)
    (containerOutput : Option Json) : Json :=
  match containerOutput with
  | some j => j
  | none =>
    .obj [("job_id", .str job_id), ("finished_at", .str finished),
          ("status", .str "completed"),
          ("result", .obj [("note", .str "container exited 0 but no output.json produced")])]

/-- Claim C2 (code bug, evaluated at the failing input): a container run
that exits 7 without producing `output.json` gets a synthesised
`output.json` stating `status = "completed"` — not `"failed"` as the
claim (and the spec, which flags this source discrepancy) mandates.  The
exit code argument is visibly ignored by the synthesis. -/
theorem container_synth_output_states_completed :
    (7 : Int) ≠ 0
    ∧ (run_compute_output_json "j1" "t0" 7 none).field "status" =
        some (.str "completed")
    ∧ run_compute_output_json "j1" "t0" 7 none = run_compute_output_json "j1" "t0" 0 none := by
  refine ⟨by decide, rfl, rfl⟩

/-- Content of a file on disk: a serialised JSON document or raw bytes. -/
inductive FileContent where
  | jsonData (j : Json) : FileContent
  | rawBytes (s : String) : FileContent

/-- Render path components as a POSIX path string. -/
def pathStr (p : List String) : String :=
  String.intercalate "/" p

/-- The canonical result envelope `run_host_compute` writes to
`output.json` (lines 395-413). -/
def host_output_envelope (job_id command started finished : String) (rc : Int)
    (stdoutPath stderrPath : String) : Json :=
  .obj [("job_id", .str job_id), ("exec_mode", .str "host"),
        ("command", .str command),
        ("status", .str (if rc = 0 then "completed" else "failed")),
        ("started_at", .str started), ("finished_at", .str finished),
        ("exit_code", .num rc),
        ("result", .obj [("stdout_path", .str stdoutPath),
                         ("stderr_path", .str stderrPath)])]

/-- The ExecutionRecord `run_host_compute` writes to `meta.json`
(lines 376-393). -/
def host_meta_json (job_id command workdir : String) (rc : Int)
    (started finished : String) (staged : List String) (so se : String)
    (stdoutPath stderrPath inputPath outputPath : String) : Json :=
  .obj [("job_id", .str job_id), ("exec_mode", .str "host"),
        ("command", .str command), ("workdir", .str workdir),
        ("status", .str (if rc = 0 then "completed" else "failed")),
        ("started_at", .str started), ("finished_at", .str finished),
        ("returncode", .num rc),
        ("staged_files", .arr (staged.map .str)),
        ("stdout_tail", .str (pyTail so 8000)),
        ("stderr_tail", .str (pyTail se 8000)),
        ("stdout_path", .str stdoutPath), ("stderr_path", .str stderrPath),
        ("input_path", .str inputPath), ("output_path", .str outputPath)]

/-- Staged files as filesystem writes. -/
def stagedAsWrites (ws : List StagedWrite) : List (List String × FileContent) :=
  ws.map (fun w => (w.target, .rawBytes w.content))

/-- The content a path holds after a sequence of writes: the last write to
that path, if any. -/
def finalFile (writes : List (List String × FileContent)) (p : List String) :
    Option FileContent :=
  ((writes.filter (fun w => w.1 == p)).getLast?).map Prod.snd

/-- Shallow embedding of `run_host_compute` (lines 338-415) at the level
of its writes inside the job directory, in program order: `input.json`,
staged files, the child's log captures and whatever files the child
command itself writes (`childWrites`, which may include `output.json`),
then `meta.json`, then — unconditionally — the executor's own envelope to
`output.json`.  Returns the writes performed and the staging error, if
one was raised (in which case execution never happens). -/
def run_host_compute_writes (b64 : String → Option String)
    (job_fields : List (String × Json)) (jobDir : List String)
    (childWrites : List (List String × FileContent)) (rc : Int)
    (started finished so se : String) :
    List (List String × FileContent) × Option String :=
  let job_id := pyStr ((lookupField job_fields "job_id").getD (.str "unknown"))
  let job_input :=
    match (lookupField job_fields "input").getD (.obj []) with
    | .obj f => f
    | _ => []
  let inputWrite := (jobDir ++ ["input.json"],
    FileContent.jsonData (.obj [("job_id", .str job_id), ("input", .obj job_input)]))
  let stage := stage_local_files b64 job_input jobDir
  match stage.2 with
  | some e => (inputWrite :: stagedAsWrites stage.1, some e)
  | none =>
    let command := pyStr ((lookupField job_input "command").getD
      (.str "echo no command provided"))
    let stdoutPath := pathStr (jobDir ++ ["stdout.log"])
    let stderrPath := pathStr (jobDir ++ ["stderr.log"])
    (((inputWrite :: stagedAsWrites stage.1)
        ++ [(jobDir ++ ["stdout.log"], .rawBytes so),
            (jobDir ++ ["stderr.log"], .rawBytes se)]
        ++ childWrites
        ++ [(jobDir ++ ["meta.json"],
              .jsonData (host_meta_json job_id command (pathStr jobDir) rc started
                finished (stage.1.map (fun w => pathStr w.target)) so se
                stdoutPath stderrPath (pathStr (jobDir ++ ["input.json"]))
                (pathStr (jobDir ++ ["output.json"]))))])
      ++ [(jobDir ++ ["output.json"],
            .jsonData (host_output_envelope job_id command started finished rc
              stdoutPath stderrPath))],
     none)

/-- After writes ending in a write to `p`, `p` holds that last write. -/
theorem finalFile_append_last (ws : List (List String × FileContent))
    (p : List String) (c : FileContent) :
    finalFile (ws ++ [(p, c)]) p = some c := by
  unfold finalFile
  rw [List.filter_append]
  simp

/-- Claim C9: in host mode, whenever `run_host_compute` runs the child
command to completion (no staging error), the final `output.json` in the
job directory is the executor's own envelope — any `output.json` the
child command wrote is overwritten — and the envelope's status is derived
from the exit code. -/
theorem run_host_compute_overwrites_output (b64 : String → Option String)
    (job_fields : List (String × Json)) (jobDir : List String)
    (childWrites : List (List String × FileContent)) (rc : Int)
    (started finished so se : String) (ws : List (List String × FileContent))
    (hok : run_host_compute_writes b64 job_fields jobDir childWrites rc
      started finished so se = (ws, none)) :
    ∃ jid cmd,
      finalFile ws (jobDir ++ ["output.json"]) =
        some (.jsonData (host_output_envelope jid cmd started finished rc
          (pathStr (jobDir ++ ["stdout.log"])) (pathStr (jobDir ++ ["stderr.log"]))))
      ∧ (host_output_envelope jid cmd started finished rc
          (pathStr (jobDir ++ ["stdout.log"]))
          (pathStr (jobDir ++ ["stderr.log"]))).field "status" =
        some (.str (if rc = 0 then "completed" else "failed")) := by
  simp only [run_host_compute_writes] at hok
  split at hok
  · simp at hok
  · simp only [Prod.mk.injEq] at hok
    refine ⟨pyStr ((lookupField job_fields "job_id").getD (.str "unknown")),
      pyStr ((lookupField
          (match (lookupField job_fields "input").getD (.obj []) with
            | .obj f => f
            | _ => []) "command").getD (.str "echo no command provided")),
      ?_, rfl⟩
    rw [← hok.1]
    exact finalFile_append_last _ _ _

/-- The concrete host run the C9 witness evaluates: `job_id = "j9"`, exit
code 3, and a child that itself wrote an `output.json`. -/
def hostWitnessWrites : List (List String × FileContent) :=
  (run_host_compute_writes sampleB64 [("job_id", .str "j9")] ["results", "j9"]
    [(["results", "j9", "output.json"], .rawBytes "child wrote this")] 3
    "t1" "t2" "" "").1

/-- Witness for C9: on the concrete run, the final `output.json` is the
executor envelope (status `"failed"` from exit code 3), despite the
child's own `output.json` write. -/
theorem run_host_compute_overwrites_output_witness :
    ∃ jid cmd,
      finalFile hostWitnessWrites (["results", "j9"] ++ ["output.json"]) =
        some (.jsonData (host_output_envelope jid cmd "t1" "t2" 3
          (pathStr (["results", "j9"] ++ ["stdout.log"]))
          (pathStr (["results", "j9"] ++ ["stderr.log"]))))
      ∧ (host_output_envelope jid cmd "t1" "t2" 3
          (pathStr (["results", "j9"] ++ ["stdout.log"]))
          (pathStr (["results", "j9"] ++ ["stderr.log"]))).field "status" =
        some (.str (if (3 : Int) = 0 then "completed" else "failed")) :=
  run_host_compute_overwrites_output sampleB64 [("job_id", .str "j9")]
    ["results", "j9"]
    [(["results", "j9", "output.json"], .rawBytes "child wrote this")] 3
    "t1" "t2" "" "" hostWitnessWrites rfl

/-- The idle-streak update at the end of a loop iteration (lines 707-710):
reset to 0 when the iteration had activity or workers are in flight,
otherwise increment, saturating at 8. -/
def idleStep (hadActivity inflightNonempty : Bool) (k : Nat) : Nat :=
  if hadActivity || inflightNonempty then 0 else min (k + 1) 8

/-- The sleep duration of one loop iteration (lines 713-717):
`max 1 (min 30 (poll_interval * 2 ^ idle_streak))`, i.e. the backoff
product clamped to `[1, 30]` seconds (floats modelled as rationals). -/
def sleepSeconds (p : ℚ) (k : Nat) : ℚ :=
  max 1 (min 30 (p * 2 ^ k))

/-- Shallow embedding of `process_once` (lines 603-655) at the level the
loop observes: given the pending outcomes drained this iteration, the
number of messages a pull would return, the in-flight count after
reaping, and whether pulling is allowed, it returns
`(had_activity, pull_issued, inflight_after)`.  No pull request is made
when `allowPull` is false; spawned workers join the in-flight set. -/
def process_once (outcomesPending : List Outcome) (pullMessages : Nat)
    (inflightAfterReap : Nat) (allowPull : Bool) : Bool × Bool × Nat :=
  let hadActivity := !outcomesPending.isEmpty
  if !allowPull then (hadActivity, false, inflightAfterReap)
  else if pullMessages = 0 then (hadActivity, true, inflightAfterReap)
  else (true, true, inflightAfterReap + pullMessages)

/-- The environment one iteration of `main`'s loop observes. -/
structure IterInput where
  sentinelExists : Bool
  outcomesPending : List Outcome
  pullMessages : Nat
  inflightAfterReap : Nat

/-- The effect of one iteration of `main`'s loop: exit the process
(recording whether the sentinel was removed and the process exit code),
or continue with a drain flag, a new idle streak, and a sleep duration. -/
inductive IterResult where
  | exitNow (sentinelRemoved : Bool) (exitCode : Nat) : IterResult
  | cont (drain : Bool) (idleStreak : Nat) (sleepSecs : ℚ) : IterResult
deriving DecidableEq

/-- Shallow embedding of one iteration of the `while True` loop in `main`
(lines 688-717): enter drain mode when the sentinel exists; run
`process_once` with pulling disabled while draining; in drain mode with
no in-flight workers, unlink the sentinel and `return` from `main` — a
normal return, so the Python process exits with status 0. -/
def main_loop_iter (drain0 : Bool) (idle0 : Nat) (pollInterval : ℚ)
    (inp : IterInput) : IterResult :=
  let drain := drain0 || inp.sentinelExists
  let r := process_once inp.outcomesPending inp.pullMessages inp.inflightAfterReap (!drain)
  if drain ∧ r.2.2 = 0 then .exitNow true 0
  else
    let idle := idleStep r.1 (r.2.2 != 0) idle0
    .cont drain idle (sleepSeconds pollInterval idle)

/-- Modelled from `hpc_supervisor.py` (its `main` loop): after the worker
exits with any return code, the supervisor restarts it unless a stop was
requested — the restart decision ignores the exit code. -/
def supervisorRestarts (stopRequested : Bool) (_rc : Int) : Bool :=
  !stopRequested

/-- Counterexample to C8 as stated: with the sentinel present and nothing
in flight, the iteration removes the sentinel and exits — but with exit
status 0 (a plain `return` from `main`), not a non-zero status. -/
theorem drain_exit_code_zero_cex :
    main_loop_iter false 0 2 ⟨true, [], 0, 0⟩ = .exitNow true 0
    ∧ (decide (main_loop_iter false 0 2 ⟨true, [], 0, 0⟩ = .exitNow true 1) = false) :=
  ⟨rfl, by decide⟩

/-- Claim C8 (amended): while in drain mode no pull is issued; when drain
mode holds and the in-flight set is empty (all outcomes having been
flushed by `process_once`), the sentinel is removed and the loop returns
— the process exits with status 0, and the supervisor restarts it on any
exit code while no stop was requested. -/
theorem drain_exit_behaviour (drain0 : Bool) (idle0 : Nat) (p : ℚ)
    (inp : IterInput) (hdrain : (drain0 || inp.sentinelExists) = true) :
    ((process_once inp.outcomesPending inp.pullMessages inp.inflightAfterReap
        (!(drain0 || inp.sentinelExists))).2.1 = false)
    ∧ (inp.inflightAfterReap = 0 →
        main_loop_iter drain0 idle0 p inp = .exitNow true 0)
    ∧ supervisorRestarts false 0 = true := by
  refine ⟨?_, ?_, rfl⟩
  · rw [hdrain]
    simp [process_once]
  · intro h0
    have hd : drain0 = true ∨ inp.sentinelExists = true := by
      simpa [Bool.or_eq_true] using hdrain
    simp [main_loop_iter, process_once, h0, hdrain, hd]

/-- Witness for C8 (amended): the concrete drain iteration (sentinel
present, zero in flight) exits with status 0. -/
theorem drain_exit_behaviour_witness :
    main_loop_iter false 0 2 ⟨true, [], 0, 0⟩ = .exitNow true 0 :=
  (drain_exit_behaviour false 0 2 ⟨true, [], 0, 0⟩ rfl).2.1 rfl

/-- The idle-streak field of an iteration's continuation, if any. -/
def IterResult.idleStreakOf : IterResult → Option Nat
  | .cont _ k _ => some k
  | .exitNow _ _ => none

/-- `process_once` (lines 603-655) with its fallible queue calls made
explicit: `flushOk` is whether the `ack_retry_outcomes` call raises
(only reachable when there are outcomes to flush) and `pullOk` whether
the pull request raises; either exception propagates out of
`process_once` into `main`'s `except` handler.  On completion the result
is as in `process_once`. -/
def process_once_fallible (outcomesPending : List Outcome)
    (flushOk pullOk : Bool) (pullMessages : Nat) (inflightAfterReap : Nat)
    (allowPull : Bool) : Except Unit (Bool × Bool × Nat) :=
  if !outcomesPending.isEmpty && !flushOk then .error ()
  else
    let hadActivity := !outcomesPending.isEmpty
    if !allowPull then .ok (hadActivity, false, inflightAfterReap)
    else if !pullOk then .error ()
    else if pullMessages = 0 then .ok (hadActivity, true, inflightAfterReap)
    else .ok (true, true, inflightAfterReap + pullMessages)

/-- One iteration of `main`'s `while True` loop including its
`try`/`except` (lines 688-717): when `process_once` raises, the error is
printed and swallowed (lines 711-712), the idle-streak update is
skipped, and the iteration falls through to the sleep with the streak —
and the already-set drain flag — unchanged. -/
def main_loop_iter_fallible (drain0 : Bool) (idle0 : Nat) (pollInterval : ℚ)
    (inp : IterInput) (flushOk pullOk : Bool) : IterResult :=
  let drain := drain0 || inp.sentinelExists
  match process_once_fallible inp.outcomesPending flushOk pullOk
      inp.pullMessages inp.inflightAfterReap (!drain) with
  | .error _ => .cont drain idle0 (sleepSeconds pollInterval idle0)
  | .ok r =>
    if drain ∧ r.2.2 = 0 then .exitNow true 0
    else
      let idle := idleStep r.1 (r.2.2 != 0) idle0
      .cont drain idle (sleepSeconds pollInterval idle)

/-- When neither queue call raises, the fallible `process_once` completes
with exactly the result of the exception-free model. -/
theorem process_once_fallible_ok (oc : List Outcome) (pm ir : Nat) (ap : Bool) :
    process_once_fallible oc true true pm ir ap = .ok (process_once oc pm ir ap) := by
  by_cases hap : ap <;> by_cases hpm : pm = 0 <;>
    simp [process_once_fallible, process_once, hap, hpm]

/-- An iteration in which neither queue call raises behaves exactly as the
exception-free iteration model. -/
theorem main_loop_iter_fallible_ok (drain0 : Bool) (idle0 : Nat) (p : ℚ)
    (inp : IterInput) :
    main_loop_iter_fallible drain0 idle0 p inp true true =
      main_loop_iter drain0 idle0 p inp := by
  unfold main_loop_iter_fallible main_loop_iter
  simp only [process_once_fallible_ok]

/-- Counterexample to C6 as stated: an iteration with no outcomes, no
in-flight workers and no pulled messages — because the pull itself raised
a transport error — leaves `idle_streak` at 0 instead of incrementing it
to `min (0+1) 8 = 1`: the `except` handler (lines 711-712) skips the
streak update, so "incremented exactly when the iteration had no
outcomes, no in-flight workers and no pulled messages" fails. -/
theorem idle_streak_frozen_on_error_cex :
    main_loop_iter_fallible false 0 2 ⟨false, [], 0, 0⟩ true false =
      .cont false 0 (sleepSeconds 2 0)
    ∧ (main_loop_iter_fallible false 0 2 ⟨false, [], 0, 0⟩ true false).idleStreakOf =
        some 0
    ∧ some 0 ≠ some (min (0 + 1) 8) :=
  ⟨rfl, rfl, by decide⟩

/-- Claim C6 (amended): each iteration sleeps
`poll_interval * 2 ^ idle_streak` clamped to `[1, 30]` seconds;
`idle_streak` is updated only by iterations that complete without
raising — incremented (saturating at 8) exactly when such an iteration
had no outcomes, no pulled messages and no in-flight workers, reset to 0
otherwise — while an iteration whose flush or pull raises leaves the
streak (and the sleep exponent) unchanged; hence over consecutive idle
iterations, raising or not, the exponent is non-decreasing up to 8 and
the sleep duration non-decreasing with it. -/
theorem backoff_policy_amended (p : ℚ) (k k' : Nat) (oc : List Outcome)
    (pm ir : Nat) (pullOk : Bool) :
    (1 ≤ sleepSeconds p k ∧ sleepSeconds p k ≤ 30)
    ∧ (1 ≤ p * 2 ^ k → p * 2 ^ k ≤ 30 → sleepSeconds p k = p * 2 ^ k)
    ∧ (p * 2 ^ k ≤ 1 → sleepSeconds p k = 1)
    ∧ (30 ≤ p * 2 ^ k → sleepSeconds p k = 30)
    ∧ (main_loop_iter_fallible false k p ⟨false, oc, pm, ir⟩ true true =
        .cont false (if oc = [] ∧ pm = 0 ∧ ir = 0 then min (k + 1) 8 else 0)
          (sleepSeconds p (if oc = [] ∧ pm = 0 ∧ ir = 0 then min (k + 1) 8 else 0)))
    ∧ (main_loop_iter_fallible false k p ⟨false, oc, pm, ir⟩ true false =
        .cont false k (sleepSeconds p k))
    ∧ (oc ≠ [] → main_loop_iter_fallible false k p ⟨false, oc, pm, ir⟩ false pullOk =
        .cont false k (sleepSeconds p k))
    ∧ (k ≤ 8 → k ≤ idleStep false false k ∧ idleStep false false k ≤ 8)
    ∧ (0 ≤ p → k ≤ k' → sleepSeconds p k ≤ sleepSeconds p k') := by
  refine ⟨⟨le_max_left 1 _, max_le (by norm_num) (min_le_left _ _)⟩,
    ?_, ?_, ?_, ?_, ?_, ?_, ?_, ?_⟩
  · intro h1 h30
    unfold sleepSeconds
    rw [min_eq_right h30, max_eq_right h1]
  · intro h1
    unfold sleepSeconds
    rw [min_eq_right (h1.trans (by norm_num)), max_eq_left h1]
  · intro h30
    unfold sleepSeconds
    rw [min_eq_left h30, max_eq_right (by norm_num)]
  · rw [main_loop_iter_fallible_ok]
    by_cases hoc : oc = [] <;> by_cases hpm : pm = 0 <;> by_cases hir : ir = 0 <;>
      simp [main_loop_iter, process_once, idleStep, hoc, hpm, hir]
  · simp [main_loop_iter_fallible, process_once_fallible]
  · intro hoc
    have he : oc.isEmpty = false := by
      cases oc with
      | nil => exact absurd rfl hoc
      | cons a l => rfl
    simp [main_loop_iter_fallible, process_once_fallible, he]
  · intro h8
    constructor
    · simp only [idleStep, Bool.false_or, if_neg Bool.false_ne_true]
      exact le_min (Nat.le_succ k) h8
    · simp only [idleStep, Bool.false_or, if_neg Bool.false_ne_true]
      exact min_le_right (k + 1) 8
  · intro hp hkk
    unfold sleepSeconds
    exact max_le_max le_rfl (min_le_min le_rfl
      (mul_le_mul_of_nonneg_left (pow_le_pow_right₀ (by norm_num) hkk) hp))

/-- Witness for C6 (amended): a fully idle completed iteration at
`poll_interval = 2`, `idle_streak = 0` increments the streak to 1, while
an iteration whose pull raises at `idle_streak = 3` keeps the streak at 3
and sleeps with the unchanged exponent. -/
theorem backoff_policy_amended_witness :
    main_loop_iter_fallible false 0 2 ⟨false, [], 0, 0⟩ true true =
      .cont false 1 (sleepSeconds 2 1)
    ∧ main_loop_iter_fallible false 3 2 ⟨false, [], 0, 0⟩ true false =
      .cont false 3 (sleepSeconds 2 3)
    ∧ sleepSeconds 2 0 ≤ sleepSeconds 2 3 := by
  have h0 := backoff_policy_amended 2 0 3 [] 0 0 true
  have h3 := backoff_policy_amended 2 3 3 [] 0 0 true
  exact ⟨by simpa using h0.2.2.2.2.1, h3.2.2.2.2.2.1,
    h0.2.2.2.2.2.2.2.2 (by norm_num) (by norm_num)⟩
